import Mathlib

/-!
Verification of the slice-normalization core `__PySlice_Unpack`
(src/torch/csrc/autograd/python_variable_indexing.h).

The function consumes a Python slice object whose three fields `start`,
`stop`, `step` are each one of: the absent sentinel `Py_None`, an
integer-convertible concrete value, a symbolic integer (an instance of
the SymInt class), or some other Python object that fails the standard
slice-index coercion `_PyEval_SliceIndex`.  It produces an
`UnpackedSlice` of three `c10::SymInt` values or raises via
`TORCH_CHECK`.

Platform integers are modelled as unbounded `Int` together with the
explicit constants `PY_SSIZE_T_MAX` / `PY_SSIZE_T_MIN` of a 64-bit
platform; `_PyEval_SliceIndex` clamps out-of-range concrete integers to
that range (it converts with `PyNumber_AsSsize_t(v, NULL)`, which clamps
instead of raising).

One path of the source reads an uninitialized local: when the (inverted)
symint-instance check passes and `_PyEval_SliceIndex` fails, execution
continues with the never-written `Py_ssize_t step`.  The embedding makes
that indeterminate value an explicit parameter `junk`, so theorems can
quantify over every possible content of the uninitialized slot.
-/

/-- 64-bit platform `PY_SSIZE_T_MAX`. -/
def PY_SSIZE_T_MAX : Int := 2 ^ 63 - 1

/-- 64-bit platform `PY_SSIZE_T_MIN`. -/
def PY_SSIZE_T_MIN : Int := -(2 ^ 63)

/-- One field of the incoming slice object: `Py_None`, an
integer-convertible concrete value converting to `n`, a symbolic integer
(an instance of the SymInt class, identified by an opaque id), or a
present value that the slice-index coercion rejects (e.g. a float). -/
inductive SliceVal where
  | absent : SliceVal
  | concrete (n : Int) : SliceVal
  | symbolic (s : Nat) : SliceVal
  | nonconvertible : SliceVal
deriving DecidableEq, Repr

/-- `c10::SymInt`: either a concrete platform integer or a deferred
symbolic integer. -/
inductive SymInt where
  | ofInt (n : Int) : SymInt
  | sym (s : Nat) : SymInt
deriving DecidableEq, Repr

/-- `c10::SymInt::is_symbolic()`. -/
def SymInt.is_symbolic : SymInt → Bool
  | .ofInt _ => false
  | .sym _ => true

/-- `c10::SymInt::expect_int()`; undefined on symbolic values (the source
only calls it under a `!is_symbolic()` guard), so the symbolic case is an
arbitrary total completion. -/
def SymInt.expect_int : SymInt → Int
  | .ofInt n => n
  | .sym _ => 0

/-- The input slice object (`PySliceObject`): three field slots. -/
structure SliceLike where
  start : SliceVal
  stop : SliceVal
  step : SliceVal
deriving DecidableEq, Repr

/-- The output `UnpackedSlice{start, stop, step}` of three `c10::SymInt`
values; by construction no field can be absent. -/
structure UnpackedSlice where
  start : SymInt
  stop : SymInt
  step : SymInt
deriving DecidableEq, Repr

/-- Which field a failure talks about. -/
inductive SliceField where
  | start : SliceField
  | stop : SliceField
  | step : SliceField
deriving DecidableEq, Repr

/-- The `TORCH_CHECK` failures of `__PySlice_Unpack`:
`unsupportedSymbolicStep` is the message "Slicing step can't be symint",
`zeroStep` is "Slicing step size can't be zero",
`symbolicStepDefault f` is "Can't use symbolic step size to determine
slicing start/stop index", and `indexConversion f` is
"Failed parsing slicing start/stop/step index to integer". -/
inductive SliceError where
  | unsupportedSymbolicStep : SliceError
  | zeroStep : SliceError
  | symbolicStepDefault (f : SliceField) : SliceError
  | indexConversion (f : SliceField) : SliceError
deriving DecidableEq, Repr

/-- `py::isinstance(v, torch::get_symint_class())`. -/
def isSymintInstance : SliceVal → Bool
  | .symbolic _ => true
  | _ => false

/-- `_PyEval_SliceIndex(v, &out)`: succeeds on an integer-convertible
value, clamping it into the platform range (CPython converts with
`PyNumber_AsSsize_t(v, NULL)`, which clamps overflowing integers); fails
on a deferred symbolic integer (its index protocol raises) and on any
non-convertible value.  `some` is the success return 1, `none` the
failure return 0. -/
def evalSliceIndex : SliceVal → Option Int
  | .concrete n => some (max PY_SSIZE_T_MIN (min PY_SSIZE_T_MAX n))
  | _ => none

/-- The step block of `__PySlice_Unpack` (lines 29-50 of the header),
statement by statement: `Py_None` gives `SymInt(1)`; otherwise
`TORCH_CHECK(py::isinstance(r->step, symint_class), "Slicing step can't
be symint")` throws exactly when the value is NOT a symint instance; then
`bool result = _PyEval_SliceIndex(r->step, &step);
TORCH_CHECK(!result, "Failed parsing slicing step to integer")` throws
exactly when the conversion SUCCEEDED; on conversion failure the local
`step` was never written, so the continuation uses the indeterminate
`junk`; then the zero check and the `-PY_SSIZE_T_MAX` clamp. -/
def stepField (junk : Int) : SliceVal → Except SliceError SymInt
  | .absent => .ok (SymInt.ofInt 1)
  | v =>
    if isSymintInstance v = false then
      .error .unsupportedSymbolicStep
    else
      match evalSliceIndex v with
      | some _ => .error (.indexConversion .step)
      | none =>
        let step := junk
        if step = 0 then
          .error .zeroStep
        else
          .ok (SymInt.ofInt (if step < -PY_SSIZE_T_MAX then -PY_SSIZE_T_MAX else step))

/-- The start block (lines 52-66): a symint instance is cast and passed
through unchanged; `Py_None` requires a non-symbolic step and defaults to
`PY_SSIZE_T_MAX` for negative step, else `0`; any other value goes
through `_PyEval_SliceIndex`, failing with "Failed parsing slicing start
index to integer" when the coercion fails. -/
def startField (step_sym : SymInt) : SliceVal → Except SliceError SymInt
  | .symbolic s => .ok (SymInt.sym s)
  | .absent =>
    if step_sym.is_symbolic then
      .error (.symbolicStepDefault .start)
    else
      .ok (SymInt.ofInt (if step_sym.expect_int < 0 then PY_SSIZE_T_MAX else 0))
  | v =>
    match evalSliceIndex v with
    | some n => .ok (SymInt.ofInt n)
    | none => .error (.indexConversion .start)

/-- The stop block (lines 68-84): symmetric to `startField` with the
absent defaults swapped to `PY_SSIZE_T_MIN` for negative step, else
`PY_SSIZE_T_MAX`. -/
def stopField (step_sym : SymInt) : SliceVal → Except SliceError SymInt
  | .symbolic s => .ok (SymInt.sym s)
  | .absent =>
    if step_sym.is_symbolic then
      .error (.symbolicStepDefault .stop)
    else
      .ok (SymInt.ofInt (if step_sym.expect_int < 0 then PY_SSIZE_T_MIN else PY_SSIZE_T_MAX))
  | v =>
    match evalSliceIndex v with
    | some n => .ok (SymInt.ofInt n)
    | none => .error (.indexConversion .stop)

/-- `__PySlice_Unpack`: the step block runs first, then start, then stop;
every `TORCH_CHECK` failure aborts the whole call.  `junk` is the content
of the uninitialized `Py_ssize_t step` slot, read on the path where the
symint-instance check passes but `_PyEval_SliceIndex` fails. -/
def PySlice_Unpack (junk : Int) (r : SliceLike) : Except SliceError UnpackedSlice :=
  match stepField junk r.step with
  | .error e => .error e
  | .ok step_sym =>
    match startField step_sym r.start with
    | .error e => .error e
    | .ok start_sym =>
      match stopField step_sym r.stop with
      | .error e => .error e
      | .ok stop_sym => .ok ⟨start_sym, stop_sym, step_sym⟩

/-- Helper: whenever the step block succeeds, the produced step is a
concrete integer that is never `0`, and an absent input step yields
exactly `SymInt(1)`. -/
theorem stepField_ok_spec (junk : Int) (v : SliceVal) (s : SymInt)
    (h : stepField junk v = .ok s) :
    s ≠ SymInt.ofInt 0 ∧ (v = SliceVal.absent → s = SymInt.ofInt 1) := by
  cases v with
  | absent =>
    simp only [stepField] at h
    injection h with h
    subst h
    exact ⟨by simp, fun _ => rfl⟩
  | concrete n =>
    simp [stepField, isSymintInstance] at h
  | symbolic ssym =>
    simp only [stepField, isSymintInstance, evalSliceIndex] at h
    by_cases hj : junk = 0
    · simp [hj] at h
    · simp only [hj, if_false, ite_false, reduceIte] at h
      injection h with h
      subst h
      refine ⟨?_, fun hc => by cases hc⟩
      by_cases hc : junk < -PY_SSIZE_T_MAX
      · simp only [hc, if_true, ite_true, reduceIte]
        intro habs
        injection habs with habs
        simp [PY_SSIZE_T_MAX] at habs
      · simp only [hc, if_false, ite_false, reduceIte]
        intro habs
        injection habs with habs
        exact hj habs
  | nonconvertible =>
    simp [stepField, isSymintInstance] at h

/-- Claim C9 (confirmed): on every successful run of the unpack routine,
the returned slice has no absent field (the output type `UnpackedSlice`
holds three `SymInt` values, which are concrete or symbolic and never an
absent sentinel), the returned step is never the concrete value `0`, and
an absent input step comes back as the concrete default `1`. -/
theorem unpack_output_step_invariant (junk : Int) (r : SliceLike)
    (out : UnpackedSlice) (h : PySlice_Unpack junk r = .ok out) :
    out.step ≠ SymInt.ofInt 0 ∧
      (r.step = SliceVal.absent → out.step = SymInt.ofInt 1) := by
  unfold PySlice_Unpack at h
  split at h
  · exact Except.noConfusion h
  next step_sym hs =>
    split at h
    · exact Except.noConfusion h
    next start_sym hst =>
      split at h
      · exact Except.noConfusion h
      next stop_sym hsp =>
        injection h with h
        subst h
        exact stepField_ok_spec junk r.step step_sym hs

/-- Witness for C9 at the concrete input `(absent, absent, absent)` with
uninitialized-slot content `0`: the run succeeds with output step
`SymInt(1)`. -/
theorem unpack_output_step_invariant_witness :
    SymInt.ofInt 1 ≠ SymInt.ofInt 0 ∧
      ((SliceLike.mk .absent .absent .absent).step = SliceVal.absent →
        SymInt.ofInt 1 = SymInt.ofInt 1) :=
  unpack_output_step_invariant 0 ⟨.absent, .absent, .absent⟩
    ⟨SymInt.ofInt 0, SymInt.ofInt PY_SSIZE_T_MAX, SymInt.ofInt 1⟩ rfl

/-- Claim C1 (refuted by the code): a symbolic step is NOT rejected with
the "Slicing step can't be symint" failure — the symint-instance check
`TORCH_CHECK(py::isinstance(r->step, symint_class), ...)` passes on a
symint, so on the input `(0, 0, symbolic)` the run never produces
`unsupportedSymbolicStep`, whatever the uninitialized slot holds. -/
theorem symbolic_step_not_flagged (junk : Int) :
    PySlice_Unpack junk ⟨.concrete 0, .concrete 0, .symbolic 0⟩ ≠
      .error .unsupportedSymbolicStep := by
  by_cases hj : junk = 0 <;>
    simp [PySlice_Unpack, stepField, startField, stopField, evalSliceIndex,
      isSymintInstance, hj]

/-- Claim C2 (refuted by the code for the step field): a present,
non-symbolic, non-integer-convertible step is rejected by the inverted
symint-instance check with "Slicing step can't be symint" instead of the
conversion failure "Failed parsing slicing step to integer". -/
theorem nonconvertible_step_misflagged (junk : Int) :
    PySlice_Unpack junk ⟨.absent, .absent, .nonconvertible⟩ =
      .error .unsupportedSymbolicStep := rfl

/-- Claim C3 (refuted by the code): a concrete step `0` is not a symint
instance, so the inverted symint-instance check fires first and the run
fails with "Slicing step can't be symint"; the zero-step check on line 40
is never reached. -/
theorem zero_step_misflagged (junk : Int) :
    PySlice_Unpack junk ⟨.absent, .absent, .concrete 0⟩ =
      .error .unsupportedSymbolicStep := rfl

/-- Claim C4 (refuted by the code): `(absent, absent, -1)` does not
return `(MAX_INT, MIN_INT, -1)`; the concrete step `-1` fails the
inverted symint-instance check, so the sign-dependent defaulting of the
absent start/stop is unreachable for every concrete step. -/
theorem negative_one_step_rejected (junk : Int) :
    PySlice_Unpack junk ⟨.absent, .absent, .concrete (-1)⟩ =
      .error .unsupportedSymbolicStep := rfl

/-- Claim C5 (refuted by the code): a concrete step `PY_SSIZE_T_MIN` is
never clamped to `-PY_SSIZE_T_MAX` because, like every concrete step, it
fails the inverted symint-instance check before the clamp on lines 46-48
can run. -/
theorem min_int_step_rejected (junk : Int) :
    PySlice_Unpack junk ⟨.absent, .absent, .concrete PY_SSIZE_T_MIN⟩ =
      .error .unsupportedSymbolicStep := rfl

/-- Claim C6 (refuted by the code): with absent start and stop and a
symbolic step, the run never fails with "Can't use symbolic step size to
determine slicing start/stop index" — the step block turns every
surviving step into a concrete `SymInt`, built from the uninitialized
slot on the symbolic path, so the `!step_sym.is_symbolic()` guards always
pass, whatever the uninitialized slot holds. -/
theorem symbolic_step_default_error_never_raised (junk : Int) (f : SliceField) :
    PySlice_Unpack junk ⟨.absent, .absent, .symbolic 0⟩ ≠
      .error (.symbolicStepDefault f) := by
  by_cases hj : junk = 0 <;>
    simp [PySlice_Unpack, stepField, startField, stopField, evalSliceIndex,
      isSymintInstance, SymInt.is_symbolic, hj]

/-- Claim C7 (refuted by the code): with symbolic start and stop and the
valid concrete step `1`, the run does not succeed with pass-through — it
fails in the step block with "Slicing step can't be symint" because the
inverted symint-instance check rejects every concrete step. -/
theorem symbolic_passthrough_blocked (junk : Int) :
    PySlice_Unpack junk ⟨.symbolic 0, .symbolic 1, .concrete 1⟩ =
      .error .unsupportedSymbolicStep := rfl

/-- Claim C8 (refuted by the code): the all-concrete normalized triple
`(0, 5, 1)` is not returned unchanged by a second unpack — every
all-concrete triple already fails in the step block, so unpack is not
even defined on its own outputs. -/
theorem concrete_triple_renormalization_fails (junk : Int) :
    PySlice_Unpack junk ⟨.concrete 0, .concrete 5, .concrete 1⟩ =
      .error .unsupportedSymbolicStep := rfl

/-- Claim C10 (refuted by the code): with an invalid (symbolic) step and
a non-convertible start, the step block raises nothing (the failed
conversion only leaves the step slot uninitialized — here holding `1`),
and the reported failure is the START conversion error, so start IS
examined and the step error does not take priority. -/
theorem start_error_reported_despite_invalid_step :
    PySlice_Unpack 1 ⟨.nonconvertible, .concrete 0, .symbolic 0⟩ =
      .error (.indexConversion .start) := rfl
